import Mathlib

/-!
Shallow embedding of the `rusty_gui` component core
(`src/components/base_components.rs`), together with theorems that settle
the specification claims about it.

Modelling conventions:
* `f32`/`f64` values are embedded as exact rationals (`ℚ`); the claims under
  study are about the algebra of the coordinate arithmetic, not about
  floating-point rounding.
* `u32` window dimensions are `ℕ`; Rust's `width/2` is `ℕ` floor division,
  then cast into `ℚ` exactly as the `as f32` / `as f64` casts do for the
  magnitudes at hand.
* GPU-resident state (`wgpu::Buffer`, bind groups, the device) carries no
  information relevant to any claim and is embedded as `Unit`.
* A Rust function that can panic is embedded as an `Option`-returning
  function; `none` is the panic outcome.
* The `Layout` registry and the `Transform` record live in repository
  modules that are not part of the sources under study; they are modelled
  from the specification (see their doc comments).
-/

namespace RustyGui

/-- Vertical text alignment, after `wgpu_glyph::VerticalAlign`. -/
inductive VerticalAlign where
  | Top
  | Center
  | Bottom
deriving DecidableEq, Repr

/-- Horizontal text alignment, after `wgpu_glyph::HorizontalAlign`. -/
inductive HorizontalAlign where
  | Left
  | Center
  | Right
deriving DecidableEq, Repr

/-- The `Label` struct of `base_components.rs`: text content, font size,
2D position, alignment pair and enabled flag. -/
structure Label where
  content : String
  size : ℚ
  pos : ℚ × ℚ
  alignment : VerticalAlign × HorizontalAlign
  enabled : Bool
deriving DecidableEq, Repr

/-- `Label::new`: stores the arguments, defaulting alignment to
`(Top, Left)` and `enabled` to `true`. -/
def Label.new (content : String) (size : ℚ) (pos : ℚ × ℚ) : Label :=
  { content := content
    size := size
    pos := pos
    alignment := (VerticalAlign.Top, HorizontalAlign.Left)
    enabled := true }

/-- `Label::align_vertical`. -/
def Label.align_vertical (l : Label) (a : VerticalAlign) : Label :=
  { l with alignment := (a, l.alignment.2) }

/-- `Label::align_horizontal`. -/
def Label.align_horizontal (l : Label) (a : HorizontalAlign) : Label :=
  { l with alignment := (l.alignment.1, a) }

/-- `Label::enable`. -/
def Label.enable (l : Label) : Label :=
  { l with enabled := true }

/-- `Label::disable`. -/
def Label.disable (l : Label) : Label :=
  { l with enabled := false }

/-- `Label::set_pos`: overwrites the stored position with the argument
position shifted by half the screen dimensions (`u32` halving, then cast). -/
def Label.set_pos (l : Label) (pos : ℚ × ℚ) (screen_dim : ℕ × ℕ) : Label :=
  { l with pos := (pos.1 + ((screen_dim.1 / 2 : ℕ) : ℚ),
                   pos.2 + ((screen_dim.2 / 2 : ℕ) : ℚ)) }

/-- One styled text run, after `wgpu_glyph::Text`: content, RGBA color and
pixel scale. -/
structure TextRun where
  content : String
  color : ℚ × ℚ × ℚ × ℚ
  scale : ℚ
deriving DecidableEq, Repr

/-- A queued text section, after `wgpu_glyph::Section`: screen position, the
list of text runs, and the layout alignment pair. -/
structure Section where
  screen_position : ℚ × ℚ
  text : List TextRun
  v_align : VerticalAlign
  h_align : HorizontalAlign
deriving DecidableEq, Repr

/-- The glyph brush is observed only through its queue of sections. -/
abbrev GlyphBrush := List Section

/-- `GlyphBrush::queue` appends a section to the frame's queue. -/
def GlyphBrush.queue (brush : GlyphBrush) (s : Section) : GlyphBrush :=
  brush ++ [s]

/-- `Label::render_text` (`TextGUIComponent` impl): when enabled, queues one
section at the stored position with the stored size, black color and the
stored alignment pair; when disabled, queues nothing. -/
def Label.render_text (l : Label) (brush : GlyphBrush) : GlyphBrush :=
  if l.enabled then
    brush.queue
      { screen_position := (l.pos.1, l.pos.2)
        text := [{ content := l.content, color := (0, 0, 0, 1), scale := l.size }]
        v_align := l.alignment.1
        h_align := l.alignment.2 }
  else
    brush

/-- Modelled from the spec: an entry of the registry's text-component
collection. The collection is type-erased (`Box<dyn TextGUIComponent>`), so a
stored component either downcasts to a `Label` or is of some other concrete
type. -/
inductive TextComponent where
  | label (l : Label)
  | other
deriving DecidableEq, Repr

/-- Modelled from the spec: the `Layout` registry's text collection
(`layout.rs` is not among the sources under study). Insertion order is
preserved; the identifier returned on insertion is the stable index of the
entry. -/
structure Layout where
  text_components : List TextComponent
deriving DecidableEq, Repr

/-- Modelled from the spec: `Layout::add_text_component` inserts a text
component and returns its stable identifier. -/
def Layout.add_text_component (layout : Layout) (c : TextComponent) : ℕ × Layout :=
  (layout.text_components.length, ⟨layout.text_components ++ [c]⟩)

/-- Modelled from the spec: `Layout::borrow_text_component_as_type_mut::<Label>`
returns the `Label` at the identifier, or nothing when the identifier is
absent or the stored component does not downcast to `Label`. -/
def Layout.borrow_text_component_as_label (layout : Layout) (i : ℕ) : Option Label :=
  match layout.text_components.get? i with
  | some (TextComponent.label l) => some l
  | _ => none

/-- Writing back through the mutable borrow: replace the entry at the
identifier with the given `Label`. -/
def Layout.set_label (layout : Layout) (i : ℕ) (l : Label) : Layout :=
  ⟨layout.text_components.set i (TextComponent.label l)⟩

/-- A 2D vector with `x`/`y` accessors, as used by the transform. -/
structure Vec2 where
  x : ℚ
  y : ℚ
deriving DecidableEq, Repr

/-- Modelled from the spec: the `Transform` collaborator is a
position + scale record (the rotation and the GPU bind group play no role in
any claim; the bind group is opaque). -/
structure Transform where
  position : Vec2
  scale : Vec2
deriving DecidableEq, Repr

/-- A window identifier, after `winit::window::WindowId`. -/
structure WindowId where
  raw : ℕ
deriving DecidableEq, Repr

/-- The windowing collaborator: identity plus current inner size. -/
structure Window where
  id : WindowId
  inner_width : ℕ
  inner_height : ℕ
deriving DecidableEq, Repr

/-- The window sub-events `handle_event_callback` distinguishes: a cursor
move carrying a position, or anything else. -/
inductive WindowEvent where
  | cursorMoved (position : ℚ × ℚ)
  | other
deriving DecidableEq, Repr

/-- A platform event: a `WindowEvent` tagged with its window id, or any
other event kind. -/
inductive Event where
  | windowEvent (window_id : WindowId) (event : WindowEvent)
  | other
deriving DecidableEq, Repr

/-- The user callback type
`Fn(&Event<()>, &Window, &bool, &mut bool)`: it reads the event, the window
and the in-bounds flag, and may rewrite the enabled flag (its only write
channel), so it is embedded as returning the new enabled flag. -/
def Callback := Event → Window → Bool → Bool → Bool

/-- The `Button` struct of `base_components.rs`. -/
structure Button where
  transform : Transform
  callback : Option Callback
  cursor_in_bounds : Bool
  vertex_buffer : Unit
  enabled : Bool
  attached_text_id : Option ℕ

/-- `create_buffers`: allocates the fixed quad vertex buffer (opaque GPU
state). -/
def create_buffers (_device : Unit) : Unit := ()

/-- The renderer collaborator, observed only through its device handle. -/
structure Renderer where
  device : Unit

/-- `Button::new`: when text is supplied, builds a centered `Label` at
`[0,0]`, inserts it into the layout's text collection and records the
returned identifier; always starts enabled with the in-bounds flag false. -/
def Button.new (transform : Transform) (callback : Option Callback)
    (renderer : Renderer) (text : Option String) (text_size : ℚ)
    (layout : Layout) : Button × Layout :=
  match text with
  | some button_text =>
      let text_label :=
        ((Label.new button_text text_size (0, 0)).align_horizontal
            HorizontalAlign.Center).align_vertical VerticalAlign.Center
      let idLayout := layout.add_text_component (TextComponent.label text_label)
      ({ transform := transform
         callback := callback
         cursor_in_bounds := false
         vertex_buffer := create_buffers renderer.device
         enabled := true
         attached_text_id := some idLayout.1 }, idLayout.2)
  | none =>
      ({ transform := transform
         callback := callback
         cursor_in_bounds := false
         vertex_buffer := create_buffers renderer.device
         enabled := true
         attached_text_id := none }, layout)

/-- `Button::enable`. -/
def Button.enable (b : Button) : Button :=
  { b with enabled := true }

/-- `Button::disable`. -/
def Button.disable (b : Button) : Button :=
  { b with enabled := false }

/-- `Button::update_text`: when an identifier is attached, looks the label
up in the layout and overwrites its `pos` with the transform position
shifted by half the screen dimensions. The Rust code calls `.unwrap()` on
the lookup, so a failed lookup panics: `none` models that panic. -/
def Button.update_text (b : Button) (layout : Layout) (screen_dim : ℕ × ℕ) :
    Option Layout :=
  match b.attached_text_id with
  | none => some layout
  | some i =>
      match layout.borrow_text_component_as_label i with
      | none => none
      | some l =>
          some (layout.set_label i
            { l with pos := (b.transform.position.x + ((screen_dim.1 / 2 : ℕ) : ℚ),
                             b.transform.position.y + ((screen_dim.2 / 2 : ℕ) : ℚ)) })

/-- `Button::has_text`. -/
def Button.has_text (b : Button) : Bool :=
  b.attached_text_id.isSome

/-- The cursor-move branch of `handle_event_callback`: converts the cursor
into centered coordinates by subtracting half the inner size, then runs the
two-stage strict hit test and writes the in-bounds flag. -/
def Button.hit_test_update (b : Button) (window : Window) (position : ℚ × ℚ) :
    Button :=
  let px := position.1 - ((window.inner_width / 2 : ℕ) : ℚ)
  let py := position.2 - ((window.inner_height / 2 : ℕ) : ℚ)
  if b.transform.position.x -
        b.transform.scale.x * 2 * ((window.inner_width / 2 : ℕ) : ℚ) / 2 < px ∧
     b.transform.position.y -
        b.transform.scale.y * 2 * ((window.inner_height / 2 : ℕ) : ℚ) / 2 < py then
    { b with cursor_in_bounds :=
        decide (b.transform.position.x +
            b.transform.scale.x * 2 * ((window.inner_width / 2 : ℕ) : ℚ) / 2 > px ∧
          b.transform.position.y +
            b.transform.scale.y * 2 * ((window.inner_height / 2 : ℕ) : ℚ) / 2 > py) }
  else
    { b with cursor_in_bounds := false }

/-- A record of one invocation of the user callback: the arguments it was
handed (the raw event, the in-bounds flag and the enabled flag at call
time). -/
structure CallbackCall where
  event : Event
  cursor_in_bounds : Bool
  enabled : Bool

/-- The event-filtering stage of `handle_event_callback`: only a
`WindowEvent` whose id matches the supplied window is considered, and of
those only a cursor move does anything — it runs the hit test. Every other
path returns the button untouched. -/
def Button.handle_event_filter (b : Button) (event : Event) (window : Window) :
    Button :=
  match event with
  | Event.windowEvent window_id we =>
      if window.id = window_id then
        match we with
        | WindowEvent.cursorMoved position => b.hit_test_update window position
        | WindowEvent.other => b
      else b
  | Event.other => b

/-- `Button::handle_event_callback` (`EventGUIComponent` impl): a matching
cursor move updates the in-bounds flag; every other path leaves the button
untouched; then the stored callback, when present, is invoked exactly once
with the raw event, the window, the current in-bounds flag and the enabled
flag, and its write to the enabled flag is applied. The returned list
records the callback invocations made during the call. -/
def Button.handle_event_callback (b : Button) (event : Event) (window : Window) :
    Button × List CallbackCall :=
  let b1 := b.handle_event_filter event window
  match b1.callback with
  | some v =>
      ({ b1 with enabled := v event window b1.cursor_in_bounds b1.enabled },
       [{ event := event, cursor_in_bounds := b1.cursor_in_bounds,
          enabled := b1.enabled }])
  | none => (b1, [])

/-! ### Concrete fixtures used by witnesses and counterexamples -/

/-- A sample transform: position `(1, 2)`, scale `(1/5, 1/5)`. -/
def tA : Transform :=
  { position := { x := 1, y := 2 }, scale := { x := 1/5, y := 1/5 } }

/-- A sample label. -/
def lblA : Label := Label.new "score" 10 (1, 2)

/-- A layout whose text collection holds exactly `lblA` at identifier `0`. -/
def layoutA : Layout := ⟨[TextComponent.label lblA]⟩

/-- A button with no attached text. -/
def bNoText : Button :=
  { transform := tA, callback := none, cursor_in_bounds := false,
    vertex_buffer := (), enabled := true, attached_text_id := none }

/-- A button whose attached identifier `0` resolves to `lblA` in `layoutA`. -/
def bWithText : Button :=
  { transform := tA, callback := none, cursor_in_bounds := false,
    vertex_buffer := (), enabled := true, attached_text_id := some 0 }

/-- A button at the origin with scale `(1/5, 1/5)` — the spec's §8
scenario. -/
def bScenario : Button :=
  { transform := { position := { x := 0, y := 0 }, scale := { x := 1/5, y := 1/5 } },
    callback := none, cursor_in_bounds := false, vertex_buffer := (),
    enabled := true, attached_text_id := none }

/-- A button at the origin with scale `(1, 1)`. -/
def bTiny : Button :=
  { transform := { position := { x := 0, y := 0 }, scale := { x := 1, y := 1 } },
    callback := none, cursor_in_bounds := false, vertex_buffer := (),
    enabled := true, attached_text_id := none }

/-- A button whose in-bounds flag is already `true`. -/
def bFlagTrue : Button :=
  { transform := tA, callback := none, cursor_in_bounds := true,
    vertex_buffer := (), enabled := true, attached_text_id := none }

/-- A callback that keeps the enabled flag as it is. -/
def cbKeep : Callback := fun _ _ _ enabled => enabled

/-- A button with the callback `cbKeep` registered. -/
def bWithCb : Button :=
  { transform := tA, callback := some cbKeep, cursor_in_bounds := false,
    vertex_buffer := (), enabled := true, attached_text_id := none }

/-- An 800×600 window with id `0`. -/
def win800 : Window := { id := ⟨0⟩, inner_width := 800, inner_height := 600 }

/-- A degenerate 1×1 window with id `0`. -/
def winTiny : Window := { id := ⟨0⟩, inner_width := 1, inner_height := 1 }

/-! ### Helper lemmas about the event path -/

lemma Button.hit_test_update_callback (b : Button) (window : Window) (p : ℚ × ℚ) :
    (b.hit_test_update window p).callback = b.callback := by
  simp only [Button.hit_test_update]
  split_ifs <;> rfl

lemma Button.hit_test_update_enabled (b : Button) (window : Window) (p : ℚ × ℚ) :
    (b.hit_test_update window p).enabled = b.enabled := by
  simp only [Button.hit_test_update]
  split_ifs <;> rfl

/-- The hit-test stage sets the in-bounds flag exactly when the converted
cursor lies strictly between `position ∓ scale * (dim/2)` on both axes: the
code's `(scale*2) * (dim/2) / 2` half-extent is exactly `scale * (dim/2)`. -/
lemma Button.hit_test_update_flag (b : Button) (window : Window) (position : ℚ × ℚ) :
    ((b.hit_test_update window position).cursor_in_bounds = true ↔
      (b.transform.position.x - b.transform.scale.x * ((window.inner_width / 2 : ℕ) : ℚ)
          < position.1 - ((window.inner_width / 2 : ℕ) : ℚ) ∧
       position.1 - ((window.inner_width / 2 : ℕ) : ℚ)
          < b.transform.position.x + b.transform.scale.x * ((window.inner_width / 2 : ℕ) : ℚ) ∧
       b.transform.position.y - b.transform.scale.y * ((window.inner_height / 2 : ℕ) : ℚ)
          < position.2 - ((window.inner_height / 2 : ℕ) : ℚ) ∧
       position.2 - ((window.inner_height / 2 : ℕ) : ℚ)
          < b.transform.position.y + b.transform.scale.y * ((window.inner_height / 2 : ℕ) : ℚ))) := by
  have ex : b.transform.scale.x * 2 * ((window.inner_width / 2 : ℕ) : ℚ) / 2
      = b.transform.scale.x * ((window.inner_width / 2 : ℕ) : ℚ) := by ring
  have ey : b.transform.scale.y * 2 * ((window.inner_height / 2 : ℕ) : ℚ) / 2
      = b.transform.scale.y * ((window.inner_height / 2 : ℕ) : ℚ) := by ring
  simp only [Button.hit_test_update, ex, ey, gt_iff_lt]
  split_ifs with h
  · simp only [decide_eq_true_iff]
    constructor
    · rintro ⟨hx, hy⟩
      exact ⟨h.1, hx, h.2, hy⟩
    · rintro ⟨_, hx, _, hy⟩
      exact ⟨hx, hy⟩
  · simp only [Bool.false_eq_true, false_iff, not_and, not_lt]
    intro h1 h2 h3
    exact absurd ⟨h1, h3⟩ h


lemma Button.handle_event_filter_callback (b : Button) (event : Event) (window : Window) :
    (b.handle_event_filter event window).callback = b.callback := by
  cases event with
  | windowEvent wid we =>
      cases we with
      | cursorMoved p =>
          simp only [Button.handle_event_filter]
          split_ifs <;> [exact Button.hit_test_update_callback b window p; rfl]
      | other =>
          simp only [Button.handle_event_filter]
          split_ifs <;> rfl
  | other => rfl

lemma Button.handle_event_filter_enabled (b : Button) (event : Event) (window : Window) :
    (b.handle_event_filter event window).enabled = b.enabled := by
  cases event with
  | windowEvent wid we =>
      cases we with
      | cursorMoved p =>
          simp only [Button.handle_event_filter]
          split_ifs <;> [exact Button.hit_test_update_enabled b window p; rfl]
      | other =>
          simp only [Button.handle_event_filter]
          split_ifs <;> rfl
  | other => rfl

/-- The callback stage only rewrites the enabled flag, so the in-bounds
flag returned by `handle_event_callback` is the one the filter stage
computed. -/
lemma Button.handle_event_fst_cursor_in_bounds (b : Button) (event : Event)
    (window : Window) :
    (b.handle_event_callback event window).1.cursor_in_bounds
      = (b.handle_event_filter event window).cursor_in_bounds := by
  simp only [Button.handle_event_callback]
  rcases h : (b.handle_event_filter event window).callback with _ | v <;> simp [h]

/-- `handle_event_callback` as a single case split on the stored callback. -/
lemma Button.handle_event_callback_eq (b : Button) (event : Event) (window : Window) :
    b.handle_event_callback event window =
      match b.callback with
      | some v =>
          ({ b.handle_event_filter event window with
             enabled := v event window
               (b.handle_event_filter event window).cursor_in_bounds b.enabled },
           [{ event := event
              cursor_in_bounds := (b.handle_event_filter event window).cursor_in_bounds
              enabled := b.enabled }])
      | none => (b.handle_event_filter event window, []) := by
  simp only [Button.handle_event_callback, Button.handle_event_filter_callback,
    Button.handle_event_filter_enabled]

/-- A matching cursor-move event routes to the hit test. -/
lemma Button.handle_event_filter_matching_cursor (b : Button) (window : Window)
    (pos : ℚ × ℚ) :
    b.handle_event_filter (Event.windowEvent window.id (WindowEvent.cursorMoved pos)) window
      = b.hit_test_update window pos := by
  simp [Button.handle_event_filter]

/-- Any event that is not a window event of this window leaves the button
untouched by the filter stage. -/
lemma Button.handle_event_filter_non_matching (b : Button) (event : Event)
    (window : Window)
    (h : ∀ wid we, event = Event.windowEvent wid we → wid ≠ window.id) :
    b.handle_event_filter event window = b := by
  cases event with
  | windowEvent wid we =>
      have hne : ¬(window.id = wid) := fun e => h wid we rfl e.symm
      simp [Button.handle_event_filter, hne]
  | other => rfl

/-- Claim C1, counterexample: on a degenerate 1×1 window the integer halves
are `0`, so the half-extent is `0` even at scale `(1,1) > 0`; the converted
cursor `(0,0)` sits exactly at the button position, yet the in-bounds flag
is computed `false` — "a cursor exactly at `p` is in bounds whenever
`s > 0`" fails as stated. -/
theorem hit_test_center_counterexample :
    (0 : ℚ) < bTiny.transform.scale.x ∧ (0 : ℚ) < bTiny.transform.scale.y ∧
    ((0 : ℚ) - (((1 : ℕ) / 2 : ℕ) : ℚ) = bTiny.transform.position.x) ∧
    ((0 : ℚ) - (((1 : ℕ) / 2 : ℕ) : ℚ) = bTiny.transform.position.y) ∧
    ((bTiny.handle_event_callback
        (Event.windowEvent winTiny.id (WindowEvent.cursorMoved (0, 0)))
        winTiny).1.cursor_in_bounds = false) := by
  refine ⟨by norm_num [bTiny], by norm_num [bTiny], by norm_num [bTiny],
    by norm_num [bTiny], ?_⟩
  rw [Button.handle_event_fst_cursor_in_bounds,
    Button.handle_event_filter_matching_cursor]
  rcases Bool.eq_false_or_eq_true ((bTiny.hit_test_update winTiny (0, 0)).cursor_in_bounds)
    with ht | hf
  · exfalso
    have hp := (Button.hit_test_update_flag bTiny winTiny (0, 0)).mp ht
    norm_num [bTiny, winTiny] at hp
  · exact hf

/-- Claim C1 (amended): on a matching cursor-move event the in-bounds flag
is set exactly when the converted cursor lies strictly between
`p - half_extent` and `p + half_extent` on both axes, where the half-extent
per axis is `scale * (dim/2)` with the integer halving the code performs;
a cursor exactly at `p` is in bounds when the scale is positive on both
axes and both window dimensions are at least 2 (so the integer halves are
nonzero); a cursor exactly at `p ± half_extent` on either axis is never in
bounds. -/
theorem hit_test_flag_characterization (b : Button) (window : Window)
    (pos : ℚ × ℚ) (hex hey cx cy : ℚ) (b' : Button)
    (hhex : hex = b.transform.scale.x * ((window.inner_width / 2 : ℕ) : ℚ))
    (hhey : hey = b.transform.scale.y * ((window.inner_height / 2 : ℕ) : ℚ))
    (hcx : cx = pos.1 - ((window.inner_width / 2 : ℕ) : ℚ))
    (hcy : cy = pos.2 - ((window.inner_height / 2 : ℕ) : ℚ))
    (hb : b' = (b.handle_event_callback
        (Event.windowEvent window.id (WindowEvent.cursorMoved pos)) window).1) :
    (b'.cursor_in_bounds = true ↔
      (b.transform.position.x - hex < cx ∧ cx < b.transform.position.x + hex ∧
       b.transform.position.y - hey < cy ∧ cy < b.transform.position.y + hey)) ∧
    (0 < b.transform.scale.x → 0 < b.transform.scale.y →
      2 ≤ window.inner_width → 2 ≤ window.inner_height →
      cx = b.transform.position.x → cy = b.transform.position.y →
      b'.cursor_in_bounds = true) ∧
    ((cx = b.transform.position.x + hex ∨ cx = b.transform.position.x - hex ∨
      cy = b.transform.position.y + hey ∨ cy = b.transform.position.y - hey) →
      b'.cursor_in_bounds = false) := by
  subst hhex hhey hcx hcy hb
  have hflag :
      ((b.handle_event_callback
          (Event.windowEvent window.id (WindowEvent.cursorMoved pos)) window).1.cursor_in_bounds)
        = (b.hit_test_update window pos).cursor_in_bounds := by
    rw [Button.handle_event_fst_cursor_in_bounds,
      Button.handle_event_filter_matching_cursor]
  have hiff := Button.hit_test_update_flag b window pos
  refine ⟨by rw [hflag]; exact hiff, ?_, ?_⟩
  · intro hsx hsy hw hh hpx hpy
    have hqx : (0 : ℚ) < ((window.inner_width / 2 : ℕ) : ℚ) := by
      have h1 : 1 ≤ window.inner_width / 2 :=
        (Nat.one_le_div_iff (by norm_num)).mpr hw
      exact_mod_cast Nat.lt_of_lt_of_le Nat.zero_lt_one h1
    have hqy : (0 : ℚ) < ((window.inner_height / 2 : ℕ) : ℚ) := by
      have h1 : 1 ≤ window.inner_height / 2 :=
        (Nat.one_le_div_iff (by norm_num)).mpr hh
      exact_mod_cast Nat.lt_of_lt_of_le Nat.zero_lt_one h1
    have hex0 : (0 : ℚ) < b.transform.scale.x * ((window.inner_width / 2 : ℕ) : ℚ) :=
      mul_pos hsx hqx
    have hey0 : (0 : ℚ) < b.transform.scale.y * ((window.inner_height / 2 : ℕ) : ℚ) :=
      mul_pos hsy hqy
    rw [hflag, hiff]
    exact ⟨by linarith, by linarith, by linarith, by linarith⟩
  · intro hor
    rw [hflag]
    rcases Bool.eq_false_or_eq_true ((b.hit_test_update window pos).cursor_in_bounds)
      with ht | hf
    swap
    · exact hf
    · exfalso
      rw [hiff] at ht
      rcases hor with h1 | h1 | h1 | h1 <;>
        [exact absurd ht.2.1 (by rw [h1]; exact lt_irrefl _);
         exact absurd ht.1 (by rw [h1]; exact lt_irrefl _);
         exact absurd ht.2.2.2 (by rw [h1]; exact lt_irrefl _);
         exact absurd ht.2.2.1 (by rw [h1]; exact lt_irrefl _)]

/-- Claim C1, witness: the spec's §8 scenario — button at `(0,0)`, scale
`(0.2, 0.2)`, window 800×600, cursor reported at `(400,300)` converts to
`(0,0)` and the in-bounds flag becomes `true`. -/
theorem hit_test_flag_characterization_witness :
    (bScenario.handle_event_callback
        (Event.windowEvent win800.id (WindowEvent.cursorMoved (400, 300)))
        win800).1.cursor_in_bounds = true := by
  have h := hit_test_flag_characterization bScenario win800 (400, 300) 80 60 0 0 _
    (by norm_num [bScenario, win800]) (by norm_num [bScenario, win800])
    (by norm_num [win800]) (by norm_num [win800]) rfl
  exact h.1.mpr (by norm_num [bScenario])

/-- Claim C3, counterexample: a cursor-move event tagged with window id `1`
arriving at the window with id `0` leaves a previously-`true` in-bounds
flag at `true` — the claimed implicit reset to `false` does not happen. -/
theorem non_matching_event_reset_counterexample :
    (WindowId.mk 1 ≠ win800.id) ∧
    ((bFlagTrue.handle_event_callback
        (Event.windowEvent ⟨1⟩ (WindowEvent.cursorMoved (0, 0)))
        win800).1.cursor_in_bounds = true) :=
  ⟨by decide, rfl⟩

/-- Claim C3 (amended): an event that is not a window event of the supplied
window — a cursor move tagged with another window's id included — leaves
the in-bounds flag exactly as it was: it is neither recomputed nor reset,
so a stale `true` survives non-matching events. -/
theorem non_matching_event_preserves_flag (b : Button) (event : Event)
    (window : Window)
    (h : ∀ wid we, event = Event.windowEvent wid we → wid ≠ window.id) :
    (b.handle_event_callback event window).1.cursor_in_bounds = b.cursor_in_bounds := by
  rw [Button.handle_event_fst_cursor_in_bounds,
    Button.handle_event_filter_non_matching b event window h]

/-- Claim C3, witness: a cursor move tagged with window id `1` at the
window with id `0` preserves the `true` flag of `bFlagTrue`. -/
theorem non_matching_event_preserves_flag_witness :
    (bFlagTrue.handle_event_callback
        (Event.windowEvent ⟨1⟩ (WindowEvent.cursorMoved (5, 5)))
        win800).1.cursor_in_bounds = true :=
  (non_matching_event_preserves_flag bFlagTrue _ win800
    (by rintro wid we h; cases h; decide)).trans rfl

/-- Claim C4: `handle_event_callback` is a total function of the button,
the event and the window (every state transition is defined; the embedding
returns for every input), and the stored callback is invoked exactly once
when present — with the raw event, the current in-bounds flag and the
enabled flag — and zero times when absent. -/
theorem handle_event_total_callback_invocation (b : Button) (event : Event)
    (window : Window) :
    ((b.handle_event_callback event window).2.length
      = if b.callback.isSome then 1 else 0) ∧
    (∀ f, b.callback = some f →
      (b.handle_event_callback event window).2 =
        [{ event := event
           cursor_in_bounds := (b.handle_event_callback event window).1.cursor_in_bounds
           enabled := b.enabled }]) ∧
    (b.callback = none → (b.handle_event_callback event window).2 = []) := by
  have heq := Button.handle_event_callback_eq b event window
  rcases hcb : b.callback with _ | f0 <;> rw [hcb] at heq
  · refine ⟨by simp [heq], ?_, fun _ => by simp [heq]⟩
    intro f hf
    exact Option.noConfusion hf
  · refine ⟨by simp [heq], ?_, fun hf => Option.noConfusion hf⟩
    intro f hf
    simp [heq]

/-- Claim C4, witness: with a constant callback registered, one invocation
is recorded (with the raw event, the current flag and the enabled flag);
without one, none is. -/
theorem handle_event_total_callback_invocation_witness :
    ((bWithCb.handle_event_callback Event.other win800).2.length = 1) ∧
    ((bWithCb.handle_event_callback Event.other win800).2 =
      [{ event := Event.other
         cursor_in_bounds := (bWithCb.handle_event_callback Event.other win800).1.cursor_in_bounds
         enabled := bWithCb.enabled }]) ∧
    ((bScenario.handle_event_callback Event.other win800).2 = []) :=
  ⟨by simpa using (handle_event_total_callback_invocation bWithCb Event.other win800).1,
   (handle_event_total_callback_invocation bWithCb Event.other win800).2.1 cbKeep rfl,
   (handle_event_total_callback_invocation bScenario Event.other win800).2.2 rfl⟩

/-- Claim C2, counterexample: with screen halves `400` and `300` both
nonzero, calling `set_pos` twice in a row with the same logical position
stores exactly the same position as calling it once — the claimed
double shift does not happen, because `set_pos` computes from its argument,
not from the stored value. -/
theorem set_pos_twice_counterexample :
    (0 : ℕ) < 800 / 2 ∧ (0 : ℕ) < 600 / 2 ∧
    ((Label.new "score" 12 (0, 0)).set_pos (3, 4) (800, 600)).set_pos (3, 4) (800, 600)
      = (Label.new "score" 12 (0, 0)).set_pos (3, 4) (800, 600) :=
  ⟨by norm_num, by norm_num, rfl⟩

/-- Claim C2 (amended): `set_pos` overwrites the stored position from its
logical argument, so calling it twice in a row with the same logical value
is idempotent; the double shift of the origin occurs only when the stored
(already converted) position is fed back as the logical argument, in which
case half the screen dimensions are added a second time. -/
theorem set_pos_overwrite_semantics (l : Label) (x y : ℚ) (w h : ℕ) :
    (((l.set_pos (x, y) (w, h)).set_pos (x, y) (w, h)) = l.set_pos (x, y) (w, h)) ∧
    (((l.set_pos (x, y) (w, h)).set_pos ((l.set_pos (x, y) (w, h)).pos) (w, h)).pos
      = (x + 2 * ((w / 2 : ℕ) : ℚ), y + 2 * ((h / 2 : ℕ) : ℚ))) := by
  refine ⟨rfl, ?_⟩
  simp only [Label.set_pos, Prod.mk.injEq]
  constructor <;> ring

/-- Claim C7: after `set_pos([x,y],(w,h))` the stored position is exactly
`[x + w/2, y + h/2]`, where `w/2`, `h/2` are the integer halves the code
computes (so odd dimensions floor); when `w` and `h` are even this is
exactly the rational `w/2`, `h/2`. -/
theorem set_pos_stored_value (l : Label) (x y : ℚ) (w h : ℕ) :
    ((l.set_pos (x, y) (w, h)).pos
      = (x + ((w / 2 : ℕ) : ℚ), y + ((h / 2 : ℕ) : ℚ))) ∧
    (2 ∣ w → 2 ∣ h →
      (l.set_pos (x, y) (w, h)).pos = (x + (w : ℚ) / 2, y + (h : ℚ) / 2)) := by
  refine ⟨rfl, fun hw hh => ?_⟩
  simp only [Label.set_pos, Prod.mk.injEq]
  rw [Nat.cast_div hw (by norm_num), Nat.cast_div hh (by norm_num)]
  norm_num

/-- Claim C7, witness: `set_pos((3,4),(801,600))` stores `(3+400, 4+300)`
(odd width floors), and at even `(800,600)` the conversion is the exact
rational shift. -/
theorem set_pos_stored_value_witness :
    ((Label.new "score" 12 (0, 0)).set_pos (3, 4) (801, 600)).pos
      = (3 + ((801 / 2 : ℕ) : ℚ), 4 + ((600 / 2 : ℕ) : ℚ)) ∧
    ((Label.new "score" 12 (0, 0)).set_pos (3, 4) (800, 600)).pos
      = (3 + (800 : ℚ) / 2, 4 + (600 : ℚ) / 2) :=
  ⟨(set_pos_stored_value (Label.new "score" 12 (0, 0)) 3 4 801 600).1,
   (set_pos_stored_value (Label.new "score" 12 (0, 0)) 3 4 800 600).2
     (by norm_num) (by norm_num)⟩

/-- Claim C8: `render_text` queues nothing when the label is disabled, and
queues exactly one section — at the stored position, with the stored size,
black color and the stored alignment pair — when enabled. -/
theorem render_text_queue (l : Label) (brush : GlyphBrush) :
    (l.enabled = false → l.render_text brush = brush) ∧
    (l.enabled = true → l.render_text brush =
      brush ++ [{ screen_position := (l.pos.1, l.pos.2)
                  text := [{ content := l.content, color := (0, 0, 0, 1), scale := l.size }]
                  v_align := l.alignment.1
                  h_align := l.alignment.2 }]) := by
  constructor <;> intro h <;> simp [Label.render_text, GlyphBrush.queue, h]

/-- Claim C8, witness: the disabled copy of `lblA` queues zero sections on
the empty brush; the enabled `lblA` queues exactly one. -/
theorem render_text_queue_witness :
    (lblA.disable).render_text [] = ([] : GlyphBrush) ∧
    lblA.render_text [] =
      [] ++ [{ screen_position := (lblA.pos.1, lblA.pos.2)
               text := [{ content := lblA.content, color := (0, 0, 0, 1), scale := lblA.size }]
               v_align := lblA.alignment.1
               h_align := lblA.alignment.2 }] :=
  ⟨(render_text_queue (lblA.disable) []).1 rfl,
   (render_text_queue lblA []).2 rfl⟩

/-- Claim C9: `Button::disable` rewrites only the button's own enabled
flag; the transform, callback, in-bounds flag, vertex buffer and attached
text identifier are untouched, and — since `disable` never touches the
registry — the associated label, its enabled flag included, is exactly what
it was before the call. -/
theorem button_disable_effects (b : Button) (layout : Layout) :
    ((b.disable).enabled = false) ∧
    ((b.disable).transform = b.transform) ∧
    ((b.disable).callback = b.callback) ∧
    ((b.disable).cursor_in_bounds = b.cursor_in_bounds) ∧
    ((b.disable).vertex_buffer = b.vertex_buffer) ∧
    ((b.disable).attached_text_id = b.attached_text_id) ∧
    (∀ i l, b.attached_text_id = some i →
      layout.borrow_text_component_as_label i = some l →
      ((b.disable).attached_text_id = some i ∧
       layout.borrow_text_component_as_label i = some l ∧
       (layout.borrow_text_component_as_label i).map Label.enabled = some l.enabled)) := by
  refine ⟨rfl, rfl, rfl, rfl, rfl, rfl, fun i l hi hl => ⟨?_, hl, ?_⟩⟩
  · simpa [Button.disable] using hi
  · simp [hl]

/-- Claim C9, witness: disabling `bWithText` leaves every other field and
the associated enabled label `lblA` in `layoutA` unchanged. -/
theorem button_disable_effects_witness :
    ((bWithText.disable).enabled = false) ∧
    ((bWithText.disable).transform = bWithText.transform) ∧
    ((bWithText.disable).attached_text_id = some 0) ∧
    (layoutA.borrow_text_component_as_label 0 = some lblA) ∧
    ((layoutA.borrow_text_component_as_label 0).map Label.enabled = some lblA.enabled) := by
  have h := button_disable_effects bWithText layoutA
  have h7 := h.2.2.2.2.2.2 0 lblA rfl rfl
  exact ⟨h.1, h.2.1, h7.1, h7.2.1, h7.2.2⟩

/-- Claim C5: `update_text` on a button with no attached identifier leaves
the registry entirely unchanged; with an identifier that resolves to a live
label it rewrites only that label's `pos` — to the transform position
shifted by the integer screen halves — and leaves every other entry of the
registry untouched. -/
theorem update_text_noop_or_overwrite (b : Button) (layout : Layout) (w h : ℕ) :
    (b.attached_text_id = none → b.update_text layout (w, h) = some layout) ∧
    (∀ i l, b.attached_text_id = some i →
      layout.borrow_text_component_as_label i = some l →
      (b.update_text layout (w, h) = some (layout.set_label i
        { l with pos := (b.transform.position.x + ((w / 2 : ℕ) : ℚ),
                         b.transform.position.y + ((h / 2 : ℕ) : ℚ)) }) ∧
       ∀ j, j ≠ i →
         (layout.set_label i
            { l with pos := (b.transform.position.x + ((w / 2 : ℕ) : ℚ),
                             b.transform.position.y + ((h / 2 : ℕ) : ℚ)) }).text_components.get? j
           = layout.text_components.get? j)) := by
  constructor
  · intro hnone
    simp [Button.update_text, hnone]
  · intro i l hi hl
    refine ⟨by simp [Button.update_text, hi, hl], fun j hj => ?_⟩
    simp only [Layout.set_label]
    exact List.get?_set_ne _ _ (fun e => hj e.symm)

/-- Claim C5, witness: `bNoText` leaves `layoutA` unchanged, and
`bWithText` rewrites exactly the `pos` of the label at identifier `0`. -/
theorem update_text_noop_or_overwrite_witness :
    bNoText.update_text layoutA (800, 600) = some layoutA ∧
    bWithText.update_text layoutA (800, 600) = some (layoutA.set_label 0
      { lblA with pos := (bWithText.transform.position.x + ((800 / 2 : ℕ) : ℚ),
                          bWithText.transform.position.y + ((600 / 2 : ℕ) : ℚ)) }) :=
  ⟨(update_text_noop_or_overwrite bNoText layoutA 800 600).1 rfl,
   ((update_text_noop_or_overwrite bWithText layoutA 800 600).2 0 lblA rfl rfl).1⟩

/-- A button whose attached identifier `0` resolves to nothing in an empty
registry: the association dangles. -/
def bDangling : Button :=
  { transform := tA, callback := none, cursor_in_bounds := false,
    vertex_buffer := (), enabled := true, attached_text_id := some 0 }

/-- Claim C6, counterexample: `update_text` on a button whose recorded
identifier `0` does not resolve in the (empty) registry hits the `.unwrap()`
on the failed lookup — the call panics (`none` in this embedding) instead of
completing and doing nothing. -/
theorem update_text_missing_label_counterexample :
    bDangling.update_text ⟨[]⟩ (800, 600) = none := rfl

/-- Claim C6 (amended): `update_text` completes without panicking exactly
when no identifier is attached or the attached identifier resolves to a
live label; when a recorded association is missing or fails to downcast,
the `.unwrap()` on the lookup panics rather than doing nothing. -/
theorem update_text_panic_iff (b : Button) (layout : Layout) (w h : ℕ) :
    b.update_text layout (w, h) = none ↔
      ∃ i, b.attached_text_id = some i ∧
        layout.borrow_text_component_as_label i = none := by
  rcases hid : b.attached_text_id with _ | i
  · simp [Button.update_text, hid]
  · rcases hl : layout.borrow_text_component_as_label i with _ | l <;>
      simp [Button.update_text, hid, hl]

/-- Claim C10: `Button::new` starts enabled with the in-bounds flag false
and records an identifier exactly when text was supplied; `Label::new`
starts enabled and aligned `(Top, Left)`; the label a button constructs for
its text sits at `[0,0]`, aligned `(Center, Center)`, and is the entry the
recorded identifier resolves to. -/
theorem constructor_initial_state (t : Transform) (cb : Option Callback)
    (r : Renderer) (text : Option String) (sz : ℚ) (layout : Layout)
    (content : String) (lsz : ℚ) (p : ℚ × ℚ) :
    ((Button.new t cb r text sz layout).1.enabled = true) ∧
    ((Button.new t cb r text sz layout).1.cursor_in_bounds = false) ∧
    ((Button.new t cb r text sz layout).1.attached_text_id.isSome = text.isSome) ∧
    ((Label.new content lsz p).enabled = true) ∧
    ((Label.new content lsz p).alignment = (VerticalAlign.Top, HorizontalAlign.Left)) ∧
    (∀ s, text = some s →
      ((Button.new t cb r text sz layout).1.attached_text_id
          = some layout.text_components.length ∧
       (Button.new t cb r text sz layout).2.borrow_text_component_as_label
          layout.text_components.length
          = some { content := s, size := sz, pos := (0, 0),
                   alignment := (VerticalAlign.Center, HorizontalAlign.Center),
                   enabled := true })) := by
  refine ⟨?_, ?_, ?_, rfl, rfl, ?_⟩
  · cases text <;> rfl
  · cases text <;> rfl
  · cases text <;> rfl
  · rintro s rfl
    refine ⟨rfl, ?_⟩
    simp [Button.new, Layout.add_text_component, Layout.borrow_text_component_as_label,
      Label.new, Label.align_horizontal, Label.align_vertical,
      List.get?_concat_length]

/-- Claim C10, witness: constructing a button with text `"ok"` over
`layoutA` records identifier `1` (the next free slot) and that identifier
resolves to the centered label at `[0,0]`. -/
theorem constructor_initial_state_witness :
    ((Button.new tA none ⟨()⟩ (some "ok") 9 layoutA).1.enabled = true) ∧
    ((Button.new tA none ⟨()⟩ (some "ok") 9 layoutA).1.cursor_in_bounds = false) ∧
    ((Button.new tA none ⟨()⟩ (some "ok") 9 layoutA).1.attached_text_id = some 1) ∧
    ((Button.new tA none ⟨()⟩ (some "ok") 9 layoutA).2.borrow_text_component_as_label 1
      = some { content := "ok", size := 9, pos := (0, 0),
               alignment := (VerticalAlign.Center, HorizontalAlign.Center),
               enabled := true }) := by
  have h := constructor_initial_state tA none ⟨()⟩ (some "ok") 9 layoutA "x" 1 (0, 0)
  have h6 := h.2.2.2.2.2 "ok" rfl
  exact ⟨h.1, h.2.1, h6.1, h6.2⟩

end RustyGui
